import Mathlib

/-!
Shallow embedding of the nanonameserver (`nanonameserver.py`) and of the
trio backend's socket factory (`dns/_trio_backend.py`), together with
proofs of the spec's claims about them.

Bytes are modelled as natural numbers (well-formed wire data keeps them
below 256).  Fallible operations return `Option`/`Except`.  Exceptions and
the trio environment (what the OS/peer delivers at each suspension point)
are modelled explicitly, so the functions below are pure translations of
the Python control flow.
-/

namespace NanoDNS

abbrev Byte := Nat

/-- One entry of a DNS question section (name, type, class). -/
structure Question where
  qname : String
  qtype : Nat
  qclass : Nat
deriving DecidableEq, Repr

/-- Modelled from the spec: the external DNS message codec's structured
message (dns.message.Message is not under src/).  The observable fields
the server touches: id, the response bit, the rcode and the question
section. -/
structure Message where
  ident : Nat
  isResponse : Bool
  rcode : Nat
  question : List Question
deriving DecidableEq, Repr

/-- The rcode constant REFUSED (dns.rcode.REFUSED = 5). -/
def REFUSED : Nat := 5

/-- The rcode constant NOERROR (dns.rcode.NOERROR = 0). -/
def NOERROR : Nat := 0

/-- Modelled from the spec: dns.message.make_response (not under src/) —
"construction of a default REFUSED response from a request" starts from a
response "addressed to the same query": same id, response bit set, same
question section, rcode initially NOERROR. -/
def make_response (q : Message) : Message :=
  { ident := q.ident, isResponse := true, rcode := NOERROR, question := q.question }

/-- Modelled from the spec: dns.message.Message.set_rcode (not under
src/) — sets the message's response code. -/
def set_rcode (m : Message) (rc : Nat) : Message :=
  { m with rcode := rc }

/-- `Server.handle`: the built-in default dispatcher.  Source:
`r = dns.message.make_response(message); r.set_rcode(dns.rcode.REFUSED); return r`. -/
def handle (message : Message) : Message :=
  set_rcode (make_response message) REFUSED

/-- A dispatcher result: `handle` may return a structured message or raw
bytes (`dns.message.Message` or `bytes`). -/
inductive HandleResult where
  | msg (m : Message)
  | raw (b : List Byte)
deriving DecidableEq, Repr

/-- Modelled from the spec: dns.trio.query.read_exactly (not under src/),
the Read-Exact primitive — "given a stream and an exact byte count,
returns exactly that many bytes, transparently looping over partial
reads; fails with a premature-termination condition if the stream ends
before the count is satisfied."  The stream is the sequence of chunks the
transport delivers (an empty chunk is the end-of-stream signal); the
result is the bytes read and the unconsumed remainder of the stream. -/
def read_exactly : List (List Byte) → Nat → Option (List Byte × List (List Byte))
  | chunks, 0 => some ([], chunks)
  | [], _ + 1 => none
  | c :: rest, n + 1 =>
    if c.isEmpty then none
    else if c.length ≤ n + 1 then
      match read_exactly rest (n + 1 - c.length) with
      | some (bs, rem) => some (c ++ bs, rem)
      | none => none
    else
      some (c.take (n + 1), c.drop (n + 1) :: rest)

/-- struct.unpack of an unsigned big-endian 16-bit quantity from two
bytes (`struct.unpack("!H", ldata)`). -/
def unpack16 (b0 b1 : Byte) : Nat := 256 * b0 + b1

/-- struct.pack of an unsigned big-endian 16-bit quantity
(`struct.pack("!H", l)`); raises struct.error (here: `none`) when the
value does not fit in 16 bits. -/
def pack16 (l : Nat) : Option (List Byte) :=
  if l < 65536 then some [l / 256, l % 256] else none

/-- The wire bytes the server sends for one dispatcher result: a
structured message is encoded with the codec (`r.to_wire()`, which may
raise) and raw bytes are used as-is.  The codec encoder is a parameter. -/
def respWire (encode : Message → Option (List Byte)) : HandleResult → Option (List Byte)
  | .msg m => encode m
  | .raw b => some b

/-- One iteration of `Server.serve_tcp` on a connection whose pending
input is `chunks`: read exactly 2 bytes, unpack a big-endian 16-bit
length `l`, read exactly `l` bytes of payload, decode
(`dns.message.from_wire`), dispatch (`self.handle`), encode structured
results, and frame the reply with a 2-byte big-endian length.  Any
failing step raises, ending the iteration with no frame sent (`none`).
The codec and the (overridable, possibly raising) dispatcher are
parameters; the result is the frame written and the unconsumed input. -/
def serve_tcp_step (decode : List Byte → Option Message)
    (encode : Message → Option (List Byte)) (hdl : Message → Option HandleResult)
    (chunks : List (List Byte)) : Option (List Byte × List (List Byte)) :=
  match read_exactly chunks 2 with
  | none => none
  | some (ldata, rest1) =>
    match ldata with
    | [b0, b1] =>
      match read_exactly rest1 (unpack16 b0 b1) with
      | none => none
      | some (wire, rest2) =>
        match decode wire with
        | none => none
        | some q =>
          match hdl q with
          | none => none
          | some r =>
            match respWire encode r with
            | none => none
            | some out =>
              match pack16 out.length with
              | none => none
              | some lenBytes => some (lenBytes ++ out, rest2)
    | _ => none

/-- One event observed by the UDP service loop at its receive point:
either a datagram arrives (with its wire bytes, the sender's address
index, and whether the later `sendto` raises), or `recvfrom` itself
raises an `Exception`, or the task is cancelled (trio's `Cancelled`
derives from `BaseException`, so `except Exception` does not catch it). -/
inductive UdpEvent where
  | datagram (wire : List Byte) (src : Nat) (sendRaises : Bool)
  | recvError
  | cancel
deriving DecidableEq, Repr

/-- Tells whether a UDP event is the cancellation signal. -/
def UdpEvent.isCancel : UdpEvent → Bool
  | .cancel => true
  | _ => false

/-- `Server.serve_udp`: the UDP service loop over a trace of receive
events, returning the datagrams it sends (reply bytes and destination).
Each iteration receives, decodes, dispatches, encodes and sends inside
`try ... except Exception: pass`, so any failing step skips to the next
iteration; cancellation is not an `Exception` and ends the loop. -/
def serve_udp_run (decode : List Byte → Option Message)
    (encode : Message → Option (List Byte)) (hdl : Message → Option HandleResult) :
    List UdpEvent → List (List Byte × Nat)
  | [] => []
  | UdpEvent.cancel :: _ => []
  | UdpEvent.recvError :: rest => serve_udp_run decode encode hdl rest
  | UdpEvent.datagram wire src sendRaises :: rest =>
    match decode wire with
    | none => serve_udp_run decode encode hdl rest
    | some q =>
      match hdl q with
      | none => serve_udp_run decode encode hdl rest
      | some r =>
        match respWire encode r with
        | none => serve_udp_run decode encode hdl rest
        | some out =>
          if sendRaises then serve_udp_run decode encode hdl rest
          else (out, src) :: serve_udp_run decode encode hdl rest

/-- The observable output of processing a single UDP event: the reply
datagram sent, or `none` when any step of that iteration fails (or the
event is not a datagram). -/
def udp_output (decode : List Byte → Option Message)
    (encode : Message → Option (List Byte)) (hdl : Message → Option HandleResult) :
    UdpEvent → Option (List Byte × Nat)
  | UdpEvent.cancel => none
  | UdpEvent.recvError => none
  | UdpEvent.datagram wire src sendRaises =>
    match decode wire with
    | none => none
    | some q =>
      match hdl q with
      | none => none
      | some r =>
        match respWire encode r with
        | none => none
        | some out => if sendRaises then none else some (out, src)

/-- The constructor arguments of `Server.__init__`. -/
structure Config where
  address : String
  port : Nat
  enable_udp : Bool
  enable_tcp : Bool
  use_thread : Bool
deriving DecidableEq, Repr

/-- The tasks `Server.main` can spawn in its nursery. -/
inductive ServerTask where
  | cancelListener
  | udpLoop
  | tcpOrch
deriving DecidableEq, Repr

/-- `Server.main`: the tasks started in the single nursery, in program
order.  Source: `wait_for_input_or_eof` is started only when
`self.use_thread`, `serve_udp` only when `self.enable_udp`, and
`orchestrate_tcp` only when `self.enable_tcp`. -/
def main_tasks (cfg : Config) : List ServerTask :=
  (if cfg.use_thread then [ServerTask.cancelListener] else []) ++
    (if cfg.enable_udp then [ServerTask.udpLoop] else []) ++
      (if cfg.enable_tcp then [ServerTask.tcpOrch] else [])

/-- What the blocking `sock.recv(1)` on the server side of the
cancellation socketpair can observe: one byte delivered, or end-of-file
because the other end closed. -/
inductive RecvEvent where
  | delivered
  | closed
deriving DecidableEq, Repr

/-- An exception a modelled task terminates with. -/
inductive Exn where
  | eofError
deriving DecidableEq, Repr

/-- `Server.wait_for_input_or_eof`: the exception the cancellation
listener terminates with, as a function of what `recv` observes.  The
body runs `await sock.recv(1)` inside `try ... finally: raise EOFError`,
so both a delivered byte and end-of-file lead to `raise EOFError`. -/
def wait_for_input_or_eof (ev : RecvEvent) : Exn :=
  match ev with
  | RecvEvent.delivered => Exn.eofError
  | RecvEvent.closed => Exn.eofError

/-- Modelled from the spec: the external structured-concurrency
collaborator's scope semantics (trio's nursery, not under src/) — when a
task exits with an exception, the scope cancels every sibling task and
returns only after all of them have unwound.  The result is the list of
siblings cancelled and whether the scope waited for all to unwind. -/
def scope_unwind (tasks : List ServerTask) (failing : ServerTask) :
    List ServerTask × Bool :=
  (tasks.filter (fun t => !(t == failing)), true)

/-- Modelled from the spec: cancelling `orchestrate_tcp` cancels every
in-flight connection handler, because `serve_listeners` runs the
handlers in the nursery opened inside `orchestrate_tcp`, which trio
cancellation propagates into (not under src/).  The result is the set of
handlers cancelled. -/
def orchestrate_tcp_cancel (inflight : List Nat) : List Nat := inflight

/-- A resolved socket address (host, port), as `getsockname` returns. -/
structure SockAddr where
  host : String
  port : Nat
deriving DecidableEq, Repr

/-- The OS socket handles a `Server` can hold: the two halves of the
cancellation socketpair, the UDP socket and the TCP socket. -/
inductive Sock where
  | leftS
  | rightS
  | udpS
  | tcpS
deriving DecidableEq, Repr

/-- A Python exception class relevant to `Server.__enter__`. -/
inductive PyErr where
  | osError
  | attributeError
deriving DecidableEq, Repr

/-- What the OS does at each fallible call of `Server.__enter__`: the
addresses the two binds resolve to, and whether each bind / the listen
call raises `OSError`. -/
structure EnterEnv where
  udpBound : SockAddr
  tcpBound : SockAddr
  udpBindRaises : Bool
  tcpBindRaises : Bool
  tcpListenRaises : Bool
deriving DecidableEq, Repr

/-- The socket-owning attributes of a `Server` plus its recorded
addresses.  A `true` flag means the attribute still references its
socket; `false` models `None`. -/
structure ServerState where
  hasLeft : Bool
  hasRight : Bool
  hasUdp : Bool
  hasTcp : Bool
  udp_address : Option SockAddr
  tcp_address : Option SockAddr
deriving DecidableEq, Repr

/-- The TCP block of `Server.__enter__`: create the TCP socket, set
SO_REUSEADDR, bind, listen, then record
`self.tcp_address = self.udp.getsockname()` — the SOURCE reads the UDP
socket's name here, which is an `AttributeError` on `None` when UDP is
disabled.  An exception propagates (`Except.error`) carrying the list of
sockets still open at that point; the body has no handler, so nothing is
closed first. -/
def server_enter_tcp (cfg : Config) (env : EnterEnv) (st : ServerState)
    (opened : List Sock) : Except (PyErr × List Sock) ServerState :=
  if cfg.enable_tcp then
    let opened2 := opened ++ [Sock.tcpS]
    if env.tcpBindRaises then Except.error (PyErr.osError, opened2)
    else if env.tcpListenRaises then Except.error (PyErr.osError, opened2)
    else if st.hasUdp then
      Except.ok { st with hasTcp := true, tcp_address := some env.udpBound }
    else Except.error (PyErr.attributeError, opened2)
  else Except.ok st

/-- `Server.__enter__`: create the socketpair, then (if enabled) create
and bind the UDP socket and record `self.udp_address`, then the TCP
block.  On success the resulting attribute state is returned; on an
exception the error carries the sockets still open when it propagates
(the body has no try/finally, so no socket is closed on that path). -/
def server_enter (cfg : Config) (env : EnterEnv) :
    Except (PyErr × List Sock) ServerState :=
  let opened0 : List Sock := [Sock.leftS, Sock.rightS]
  let st0 : ServerState :=
    { hasLeft := true, hasRight := true, hasUdp := false, hasTcp := false,
      udp_address := none, tcp_address := none }
  if cfg.enable_udp then
    let opened1 := opened0 ++ [Sock.udpS]
    if env.udpBindRaises then Except.error (PyErr.osError, opened1)
    else
      server_enter_tcp cfg env
        { st0 with hasUdp := true, udp_address := some env.udpBound } opened1
  else server_enter_tcp cfg env st0 opened0

/-- The handoff in `Server.wait_for_input_or_eof`: the task wraps
`self.right` and sets `self.right = None` ("we own cleanup").  The
result is the new attribute state and the sockets the task took. -/
def wait_handoff (st : ServerState) : ServerState × List Sock :=
  ({ st with hasRight := false }, if st.hasRight then [Sock.rightS] else [])

/-- The handoff in `Server.serve_udp`: the task wraps `self.udp` and
sets `self.udp = None` ("we own cleanup"). -/
def serve_udp_handoff (st : ServerState) : ServerState × List Sock :=
  ({ st with hasUdp := false }, if st.hasUdp then [Sock.udpS] else [])

/-- The handoff in `Server.orchestrate_tcp`: the task wraps `self.tcp`
and sets `self.tcp = None` ("we own cleanup"). -/
def orchestrate_tcp_handoff (st : ServerState) : ServerState × List Sock :=
  ({ st with hasTcp := false }, if st.hasTcp then [Sock.tcpS] else [])

/-- `Server.__exit__`: closes `self.left`, `self.right`, `self.udp` and
`self.tcp` exactly when each is still non-`None`.  The result is the
list of sockets it closes. -/
def server_exit (st : ServerState) : List Sock :=
  (if st.hasLeft then [Sock.leftS] else []) ++
    (if st.hasRight then [Sock.rightS] else []) ++
      (if st.hasUdp then [Sock.udpS] else []) ++
        (if st.hasTcp then [Sock.tcpS] else [])

/-- Runs the handoffs of whichever servicing tasks started (`w` the
cancellation listener, `u` the UDP loop, `t` the TCP orchestrator),
returning the attribute state they leave behind and all sockets taken. -/
def run_handoffs (st : ServerState) (w u t : Bool) : ServerState × List Sock :=
  let p1 := if w then wait_handoff st else (st, [])
  let p2 := if u then serve_udp_handoff p1.1 else (p1.1, [])
  let p3 := if t then orchestrate_tcp_handoff p2.1 else (p2.1, [])
  (p3.1, p1.2 ++ p2.2 ++ p3.2)

/-- The socket-type argument of `Backend.make_socket`: SOCK_DGRAM,
SOCK_STREAM, or any other value (e.g. SOCK_RAW). -/
inductive SockKind where
  | dgram
  | stream
  | other
deriving DecidableEq, Repr

/-- What the environment does at each fallible call inside
`Backend.make_socket`. -/
structure MsEnv where
  bindRaises : Bool
  connectRaises : Bool
  sslWrapRaises : Bool
deriving DecidableEq, Repr

/-- The exception `make_socket` can propagate. -/
inductive MsErr where
  | osError
  | sslError
  | notImplementedError
deriving DecidableEq, Repr

/-- A resource `make_socket` acquires: the raw trio socket, or the
stream wrapping it. -/
inductive MsResource where
  | rawSock
  | sockStream
deriving DecidableEq, Repr

/-- A successful `make_socket` result. -/
inductive MsResult where
  | datagramSock
  | streamSock (tls : Bool)
deriving DecidableEq, Repr

/-- `Backend.make_socket` from `dns/_trio_backend.py`: create the raw
socket; inside `try`, bind (when a source address is given) and, for
SOCK_STREAM, connect — on an exception there, `s.close()` runs before
re-raising; for SOCK_DGRAM return a `DatagramSocket`; for SOCK_STREAM
wrap the socket in a stream and, with an ssl context, wrap again for TLS
— on an exception there `await stream.aclose()` runs before re-raising
(closing the underlying socket too); any other socket type raises
`NotImplementedError` with no handler, leaving the raw socket open.  An
error carries the resources still open when it propagates. -/
def make_socket (kind : SockKind) (hasSource hasSsl : Bool) (env : MsEnv) :
    Except (MsErr × List MsResource) MsResult :=
  if hasSource && env.bindRaises then Except.error (MsErr.osError, [])
  else if kind == SockKind.stream && env.connectRaises then
    Except.error (MsErr.osError, [])
  else
    match kind with
    | SockKind.dgram => Except.ok MsResult.datagramSock
    | SockKind.stream =>
      if hasSsl && env.sslWrapRaises then Except.error (MsErr.sslError, [])
      else Except.ok (MsResult.streamSock hasSsl)
    | SockKind.other =>
      Except.error (MsErr.notImplementedError, [MsResource.rawSock])

/-- A trivial codec decoder used to evaluate the server model on
concrete inputs: every wire decodes to a fixed empty query. -/
def decodeW : List Byte → Option Message :=
  fun _ => some { ident := 0, isResponse := false, rcode := 0, question := [] }

/-- A trivial codec encoder used to evaluate the server model on
concrete inputs: a message encodes to the one-byte wire holding its
rcode. -/
def encodeW : Message → Option (List Byte) :=
  fun m => some [m.rcode]

/-- The default dispatcher as the serve loops see it: `self.handle`
returning a structured message, never raising. -/
def defaultDispatch : Message → Option HandleResult :=
  fun m => some (HandleResult.msg (handle m))

end NanoDNS

open NanoDNS

/-- Reassembly lemma for the Read-Exact primitive: over any chunking of
the incoming bytes (no end-of-stream marker), as long as at least `n`
bytes are available, `read_exactly` returns the first `n` bytes of the
flattened stream and a remainder whose flattening is the rest. -/
theorem read_exactly_flatten :
    ∀ (chunks : List (List Byte)) (n : Nat),
      (∀ c ∈ chunks, c ≠ []) → n ≤ chunks.flatten.length →
      ∃ rem, read_exactly chunks n = some (chunks.flatten.take n, rem) ∧
        rem.flatten = chunks.flatten.drop n ∧ (∀ c ∈ rem, c ≠ []) := by
  intro chunks
  induction chunks with
  | nil =>
    intro n _ hn
    simp at hn
    subst hn
    exact ⟨[], rfl, by simp, by simp⟩
  | cons c rest ih =>
    intro n hne hn
    match n with
    | 0 => exact ⟨c :: rest, rfl, by simp, hne⟩
    | m + 1 =>
      have hc : c ≠ [] := hne c (by simp)
      have hcE : c.isEmpty = false := List.isEmpty_eq_false.mpr hc
      have hlen : (c :: rest).flatten.length = c.length + rest.flatten.length := by
        simp [List.flatten_cons]
      by_cases hle : c.length ≤ m + 1
      · have hrest : m + 1 - c.length ≤ rest.flatten.length := by omega
        obtain ⟨rem, hre, hfl, hner⟩ :=
          ih (m + 1 - c.length) (fun x hx => hne x (by simp [hx])) hrest
        have htake : (c :: rest).flatten.take (m + 1) =
            c ++ rest.flatten.take (m + 1 - c.length) := by
          rw [List.flatten_cons, List.take_append_eq_append_take,
            List.take_of_length_le hle]
        have hdrop : (c :: rest).flatten.drop (m + 1) =
            rest.flatten.drop (m + 1 - c.length) := by
          rw [List.flatten_cons, List.drop_append_eq_append_drop,
            List.drop_of_length_le hle, List.nil_append]
        refine ⟨rem, ?_, ?_, hner⟩
        · rw [htake]
          simp only [read_exactly, hcE, Bool.false_eq_true, if_false, if_pos hle, hre]
        · rw [hdrop]
          exact hfl
      · push_neg at hle
        have htake : (c :: rest).flatten.take (m + 1) = c.take (m + 1) := by
          rw [List.flatten_cons, List.take_append_eq_append_take,
            Nat.sub_eq_zero_of_le (Nat.le_of_lt hle)]
          simp
        have hdrop : (c :: rest).flatten.drop (m + 1) =
            c.drop (m + 1) ++ rest.flatten := by
          rw [List.flatten_cons, List.drop_append_eq_append_drop,
            Nat.sub_eq_zero_of_le (Nat.le_of_lt hle)]
          simp
        refine ⟨c.drop (m + 1) :: rest, ?_, ?_, ?_⟩
        · rw [htake]
          simp only [read_exactly, hcE, Bool.false_eq_true, if_false,
            if_neg (by omega : ¬ c.length ≤ m + 1)]
        · rw [hdrop]
          simp [List.flatten_cons]
        · intro x hx
          rcases List.mem_cons.mp hx with hx | hx
          · subst hx
            intro hnil
            have hdl := congrArg List.length hnil
            simp [List.length_drop] at hdl
            omega
          · exact hne x (by simp [hx])

/-- Claim C2: the built-in default dispatcher returns a response whose
rcode is REFUSED and whose question section matches the request's, and
invoking it twice on the same request yields the same response. -/
theorem default_handle_refused (m : NanoDNS.Message) :
    (NanoDNS.handle m).rcode = NanoDNS.REFUSED ∧
    (NanoDNS.handle m).question = m.question ∧
    NanoDNS.handle m = NanoDNS.handle m := by
  refine ⟨rfl, rfl, rfl⟩

/-- Claim C4: a TCP handler iteration reads exactly 2 bytes (across
arbitrary chunk boundaries), interprets them as a big-endian 16-bit
length, reads exactly that many payload bytes, decodes, dispatches,
encodes a structured result (or uses raw bytes as-is via `respWire`),
and writes back a 2-byte big-endian length followed by the response
bytes, consuming exactly the frame from the input. -/
theorem serve_tcp_step_framing (decode : List Byte → Option Message)
    (encode : Message → Option (List Byte)) (hdl : Message → Option HandleResult)
    (chunks : List (List Byte)) (b0 b1 : Byte) (body : List Byte)
    (q : Message) (r : HandleResult) (out : List Byte)
    (hne : ∀ c ∈ chunks, c ≠ [])
    (hflat : chunks.flatten = b0 :: b1 :: body)
    (hlen : unpack16 b0 b1 ≤ body.length)
    (hdec : decode (body.take (unpack16 b0 b1)) = some q)
    (hh : hdl q = some r)
    (hw : respWire encode r = some out)
    (hfits : out.length < 65536) :
    ∃ rem, serve_tcp_step decode encode hdl chunks =
        some ((out.length / 256) :: (out.length % 256) :: out, rem) ∧
      rem.flatten = body.drop (unpack16 b0 b1) := by
  have h2le : 2 ≤ chunks.flatten.length := by
    rw [hflat]
    simp
  obtain ⟨rem1, h1, hfl1, hne1⟩ := read_exactly_flatten chunks 2 hne h2le
  rw [hflat] at h1 hfl1
  have h1' : read_exactly chunks 2 = some ([b0, b1], rem1) := h1
  have hfl1' : rem1.flatten = body := hfl1
  have hLle : unpack16 b0 b1 ≤ rem1.flatten.length := by
    rw [hfl1']
    exact hlen
  obtain ⟨rem2, h2, hfl2, _⟩ := read_exactly_flatten rem1 (unpack16 b0 b1) hne1 hLle
  rw [hfl1'] at h2 hfl2
  have hp : pack16 out.length = some [out.length / 256, out.length % 256] := by
    simp [pack16, hfits]
  refine ⟨rem2, ?_, hfl2⟩
  simp only [serve_tcp_step, h1', h2, hdec, hh, hw, hp]
  rfl

/-- Concrete instantiation of `serve_tcp_step_framing`: the stream
delivering bytes 0, 1, 7 split across two chunks yields the framed
one-byte REFUSED reply. -/
theorem serve_tcp_step_framing_witness :
    ∃ rem, serve_tcp_step decodeW encodeW defaultDispatch [[0], [1, 7]] =
        some ([0, 1, 5], rem) ∧ rem.flatten = ([7] : List Byte).drop (unpack16 0 1) := by
  have h := serve_tcp_step_framing decodeW encodeW defaultDispatch [[0], [1, 7]] 0 1 [7]
    { ident := 0, isResponse := false, rcode := 0, question := [] }
    (HandleResult.msg
      (handle { ident := 0, isResponse := false, rcode := 0, question := [] }))
    [5] (by decide) (by decide) (by decide) (by decide) (by decide) (by decide)
    (by decide)
  simpa using h

/-- Claim C5: every frame the TCP handler sends has its 2-byte
big-endian declared length equal to the byte length of the payload that
follows it. -/
theorem serve_tcp_frame_length (decode : List Byte → Option Message)
    (encode : Message → Option (List Byte)) (hdl : Message → Option HandleResult)
    (chunks : List (List Byte)) (frame : List Byte) (rem : List (List Byte))
    (h : serve_tcp_step decode encode hdl chunks = some (frame, rem)) :
    ∃ payload, frame = (payload.length / 256) :: (payload.length % 256) :: payload ∧
      payload.length < 65536 ∧
      unpack16 (payload.length / 256) (payload.length % 256) = payload.length := by
  unfold serve_tcp_step at h
  rcases e1 : read_exactly chunks 2 with _ | ⟨ldata, rest1⟩
  · rw [e1] at h
    simp at h
  rw [e1] at h
  dsimp only at h
  rcases ldata with _ | ⟨b0, tl⟩
  · simp at h
  rcases tl with _ | ⟨b1, tl2⟩
  · simp at h
  rcases tl2 with _ | ⟨x, tl3⟩
  swap
  · simp at h
  dsimp only at h
  rcases e2 : read_exactly rest1 (unpack16 b0 b1) with _ | ⟨wire, rest2⟩
  · rw [e2] at h
    simp at h
  rw [e2] at h
  dsimp only at h
  rcases e3 : decode wire with _ | q
  · rw [e3] at h
    simp at h
  rw [e3] at h
  dsimp only at h
  rcases e4 : hdl q with _ | r
  · rw [e4] at h
    simp at h
  rw [e4] at h
  dsimp only at h
  rcases e5 : respWire encode r with _ | out
  · rw [e5] at h
    simp at h
  rw [e5] at h
  dsimp only at h
  rcases e6 : pack16 out.length with _ | lenBytes
  · rw [e6] at h
    simp at h
  rw [e6] at h
  dsimp only at h
  simp only [Option.some.injEq] at h
  simp only [Prod.mk.injEq] at h
  obtain ⟨hframe, _⟩ := h
  by_cases hf : out.length < 65536
  · have hlb : lenBytes = [out.length / 256, out.length % 256] := by
      simp [pack16, hf] at e6
      exact e6.symm
    refine ⟨out, ?_, hf, ?_⟩
    · rw [← hframe, hlb]
      rfl
    · show 256 * (out.length / 256) + out.length % 256 = out.length
      exact Nat.div_add_mod out.length 256
  · simp [pack16, hf] at e6

/-- Concrete instantiation of `serve_tcp_frame_length`: the frame sent
for the concrete stream 0, 1, 7 declares length 1 for its one payload
byte. -/
theorem serve_tcp_frame_length_witness :
    ∃ payload : List Byte,
      ([0, 1, 5] : List Byte) =
          (payload.length / 256) :: (payload.length % 256) :: payload ∧
        payload.length < 65536 ∧
        unpack16 (payload.length / 256) (payload.length % 256) = payload.length :=
  serve_tcp_frame_length decodeW encodeW defaultDispatch [[0], [1, 7]] [0, 1, 5] []
    (by decide)

/-- Claim C6: the UDP loop's output over any event trace equals the
per-datagram outputs of the events up to (and not including) the first
cancellation: every failing iteration is discarded and the loop
continues, and only the cancellation signal ends the loop. -/
theorem serve_udp_resilient (decode : List Byte → Option Message)
    (encode : Message → Option (List Byte)) (hdl : Message → Option HandleResult)
    (events : List UdpEvent) :
    serve_udp_run decode encode hdl events =
      (events.takeWhile (fun e => !e.isCancel)).filterMap
        (udp_output decode encode hdl) := by
  induction events with
  | nil => rfl
  | cons e rest ih =>
    cases e with
    | cancel => rfl
    | recvError =>
      simp [serve_udp_run, udp_output, UdpEvent.isCancel, List.takeWhile_cons, ih]
    | datagram wire src sendRaises =>
      rcases hd : decode wire with _ | q
      · simp [serve_udp_run, udp_output, UdpEvent.isCancel, List.takeWhile_cons, hd, ih]
      rcases hh : hdl q with _ | r
      · simp [serve_udp_run, udp_output, UdpEvent.isCancel, List.takeWhile_cons,
          hd, hh, ih]
      rcases hw : respWire encode r with _ | out
      · simp [serve_udp_run, udp_output, UdpEvent.isCancel, List.takeWhile_cons,
          hd, hh, hw, ih]
      cases sendRaises <;>
        simp [serve_udp_run, udp_output, UdpEvent.isCancel, List.takeWhile_cons,
          hd, hh, hw, ih]

/-- Claim C1: whichever of the two events the cancellation endpoint
observes (one byte delivered, or closure), the listener terminates with
EOFError; in a running threaded server with UDP and TCP enabled the
listener is a sibling of the UDP loop and the TCP orchestrator in the
one nursery, and its exception makes the scope cancel both siblings
(cancelling the orchestrator cancels every in-flight handler) and wait
for all of them to unwind before returning. -/
theorem cancellation_unwinds_scope (ev : RecvEvent) (a : String) (p : Nat)
    (inflight : List Nat) :
    wait_for_input_or_eof ev = Exn.eofError ∧
    ServerTask.cancelListener ∈ main_tasks ⟨a, p, true, true, true⟩ ∧
    scope_unwind (main_tasks ⟨a, p, true, true, true⟩) ServerTask.cancelListener =
      ([ServerTask.udpLoop, ServerTask.tcpOrch], true) ∧
    orchestrate_tcp_cancel inflight = inflight := by
  refine ⟨?_, ?_, ?_, rfl⟩
  · cases ev <;> rfl
  · simp [main_tasks]
  · simp [main_tasks, scope_unwind]

/-- Counterexample to claim C7 as stated: with UDP and TCP enabled, the
Threaded-mode server spawns a different task set than the Embedded-mode
server — `main` starts `wait_for_input_or_eof` only when
`self.use_thread`. -/
theorem main_tasks_differ_across_modes :
    main_tasks ⟨"127.0.0.1", 0, true, true, true⟩ ≠
      main_tasks ⟨"127.0.0.1", 0, true, true, false⟩ := by
  decide

/-- Claim C7 as amended: both hosting modes spawn the UDP loop (if
enabled) and the TCP orchestrator (if enabled) in the one nursery, so
the service tasks agree across modes; but the cancellation listener is
spawned only in Threaded mode and omitted in Embedded mode. -/
theorem main_tasks_modes_agree_modulo_listener (a : String) (p : Nat)
    (eu et : Bool) :
    (main_tasks ⟨a, p, eu, et, true⟩).filter
        (fun t => !(t == ServerTask.cancelListener)) =
      (main_tasks ⟨a, p, eu, et, false⟩).filter
        (fun t => !(t == ServerTask.cancelListener)) ∧
    ServerTask.cancelListener ∈ main_tasks ⟨a, p, eu, et, true⟩ ∧
    ServerTask.cancelListener ∉ main_tasks ⟨a, p, eu, et, false⟩ := by
  cases eu <;> cases et <;> simp [main_tasks]

/-- Claim C3 evaluated at its failing inputs: with UDP disabled and TCP
enabled, `__enter__` raises AttributeError (it reads
`self.udp.getsockname()` on `None`), and with both enabled it records
the UDP socket's bound address (port 1111 here) as `tcp_address` even
though the TCP socket bound elsewhere (port 2222). -/
theorem tcp_address_records_udp_name :
    server_enter ⟨"127.0.0.1", 0, false, true, true⟩
        ⟨⟨"127.0.0.1", 1111⟩, ⟨"127.0.0.1", 2222⟩, false, false, false⟩ =
      Except.error (PyErr.attributeError, [Sock.leftS, Sock.rightS, Sock.tcpS]) ∧
    server_enter ⟨"127.0.0.1", 0, true, true, true⟩
        ⟨⟨"127.0.0.1", 1111⟩, ⟨"127.0.0.1", 2222⟩, false, false, false⟩ =
      Except.ok
        { hasLeft := true, hasRight := true, hasUdp := true, hasTcp := true,
          udp_address := some ⟨"127.0.0.1", 1111⟩,
          tcp_address := some ⟨"127.0.0.1", 1111⟩ } :=
  ⟨rfl, rfl⟩

/-- Counterexample to claim C8 as stated: when the UDP bind raises
during `__enter__`, the error propagates while the socketpair and the
UDP socket are all still open — nothing is released first. -/
theorem enter_propagates_with_sockets_open :
    server_enter ⟨"127.0.0.1", 0, true, true, true⟩
        ⟨⟨"127.0.0.1", 1111⟩, ⟨"127.0.0.1", 2222⟩, true, false, false⟩ =
      Except.error (PyErr.osError, [Sock.leftS, Sock.rightS, Sock.udpS]) ∧
    ([Sock.leftS, Sock.rightS, Sock.udpS] : List Sock) ≠ [] :=
  ⟨rfl, by decide⟩

/-- Claim C8 as amended: on every exception exit of `__enter__` the
error propagates with the already-acquired sockets still open — in
particular both halves of the socketpair remain unreleased; `__enter__`
has no cleanup path of its own. -/
theorem enter_error_keeps_sockets_open (cfg : Config) (env : EnterEnv)
    (err : PyErr) (opened : List Sock)
    (h : server_enter cfg env = Except.error (err, opened)) :
    Sock.leftS ∈ opened ∧ Sock.rightS ∈ opened ∧ opened ≠ [] := by
  unfold server_enter server_enter_tcp at h
  repeat' split at h
  all_goals
    first
      | (simp only [Except.error.injEq, Prod.mk.injEq] at h
         obtain ⟨he, ho⟩ := h
         subst ho
         decide)
      | (simp at h
         obtain ⟨he, ho⟩ := h
         subst ho
         decide)
      | simp at h

/-- Concrete instantiation of `enter_error_keeps_sockets_open` at a
failing UDP bind. -/
theorem enter_error_keeps_sockets_open_witness :
    Sock.leftS ∈ [Sock.leftS, Sock.rightS, Sock.udpS] ∧
    Sock.rightS ∈ [Sock.leftS, Sock.rightS, Sock.udpS] ∧
    ([Sock.leftS, Sock.rightS, Sock.udpS] : List Sock) ≠ [] :=
  enter_error_keeps_sockets_open ⟨"127.0.0.1", 0, true, true, true⟩
    ⟨⟨"127.0.0.1", 1111⟩, ⟨"127.0.0.1", 2222⟩, true, false, false⟩
    PyErr.osError [Sock.leftS, Sock.rightS, Sock.udpS] rfl

/-- Claim C9: each servicing task clears the attribute of the socket it
takes (`right`, `udp`, `tcp` become `None`), and whichever subset of
tasks started, `__exit__` closes no socket a task took — so teardown
closes only never-handed-off sockets and no socket has two owners; once
all three tasks have started, `__exit__` closes at most the left half of
the socketpair. -/
theorem handoff_ownership (st : ServerState) (w u t : Bool) :
    (wait_handoff st).1.hasRight = false ∧
    (serve_udp_handoff st).1.hasUdp = false ∧
    (orchestrate_tcp_handoff st).1.hasTcp = false ∧
    (∀ s ∈ (run_handoffs st w u t).2, s ∉ server_exit (run_handoffs st w u t).1) ∧
    server_exit (run_handoffs st true true true).1 =
      (if st.hasLeft then [Sock.leftS] else []) := by
  obtain ⟨l, r, u', t', ua, ta⟩ := st
  refine ⟨rfl, rfl, rfl, ?_, ?_⟩
  · cases w <;> cases u <;> cases t <;> cases l <;> cases r <;> cases u' <;>
      cases t' <;>
      simp [run_handoffs, wait_handoff, serve_udp_handoff, orchestrate_tcp_handoff,
        server_exit]
  · cases l <;> cases r <;> cases u' <;> cases t' <;>
      simp [run_handoffs, wait_handoff, serve_udp_handoff, orchestrate_tcp_handoff,
        server_exit]

/-- Counterexample to claim C10 as stated: `make_socket` called with a
socket type that is neither SOCK_DGRAM nor SOCK_STREAM fails with
NotImplementedError while the freshly created raw socket is still open —
a failed `make_socket` can leak a socket handle. -/
theorem make_socket_leaks_on_unsupported_type :
    make_socket SockKind.other false false ⟨false, false, false⟩ =
      Except.error (MsErr.notImplementedError, [MsResource.rawSock]) ∧
    ([MsResource.rawSock] : List MsResource) ≠ [] :=
  ⟨rfl, by decide⟩

/-- Claim C10 as amended: every bind, connect, or TLS-wrap failure in
`make_socket` closes the partially acquired resource before the
exception propagates (nothing stays open), and on success SOCK_DGRAM
yields a DatagramSocket and SOCK_STREAM a StreamSocket; only the
unsupported-socket-type failure (NotImplementedError) leaves the raw
socket open. -/
theorem make_socket_cleanup (kind : SockKind) (hasSource hasSsl : Bool)
    (env : MsEnv) (err : MsErr) (leaked : List MsResource)
    (h : make_socket kind hasSource hasSsl env = Except.error (err, leaked)) :
    (err ≠ MsErr.notImplementedError → leaked = []) ∧
    (err = MsErr.notImplementedError → leaked = [MsResource.rawSock]) ∧
    make_socket SockKind.dgram hasSource hasSsl ⟨false, false, false⟩ =
      Except.ok MsResult.datagramSock ∧
    make_socket SockKind.stream hasSource hasSsl ⟨false, false, false⟩ =
      Except.ok (MsResult.streamSock hasSsl) := by
  have h3 : make_socket SockKind.dgram hasSource hasSsl ⟨false, false, false⟩ =
      Except.ok MsResult.datagramSock := by
    simp [make_socket]
  have h4 : make_socket SockKind.stream hasSource hasSsl ⟨false, false, false⟩ =
      Except.ok (MsResult.streamSock hasSsl) := by
    simp [make_socket]
  refine ⟨?_, ?_, h3, h4⟩
  · intro hne
    unfold make_socket at h
    repeat' split at h
    all_goals
      first
        | (simp only [Except.error.injEq, Prod.mk.injEq] at h
           obtain ⟨he, ho⟩ := h
           subst ho
           first
             | rfl
             | exact absurd he.symm hne)
        | simp at h
  · intro heq
    subst heq
    unfold make_socket at h
    repeat' split at h
    all_goals
      first
        | (simp only [Except.error.injEq, Prod.mk.injEq] at h
           obtain ⟨he, ho⟩ := h
           subst ho
           first
             | rfl
             | exact absurd he (by decide))
        | simp at h

/-- Concrete instantiation of `make_socket_cleanup` at a failing bind on
a stream socket: the raw socket is closed before OSError propagates. -/
theorem make_socket_cleanup_witness :
    (MsErr.osError ≠ MsErr.notImplementedError → ([] : List MsResource) = []) ∧
    (MsErr.osError = MsErr.notImplementedError →
      ([] : List MsResource) = [MsResource.rawSock]) ∧
    make_socket SockKind.dgram true true ⟨false, false, false⟩ =
      Except.ok MsResult.datagramSock ∧
    make_socket SockKind.stream true true ⟨false, false, false⟩ =
      Except.ok (MsResult.streamSock true) :=
  make_socket_cleanup SockKind.stream true true ⟨true, false, false⟩ MsErr.osError []
    rfl
